import Mathlib

/-!
Verification of the content-collection and summarization pipeline
(content/chapter_10_zh_TW/content_collection.py and custom_summarize_chain.py).

The pipeline's own logic is embedded shallowly below; the external
collaborators it orchestrates (the headless-browser page fetch, the
HTML-to-text transform, the Pydantic output parsing, the text splitter
and the chat-model inference call) are passed in as opaque function
parameters, exactly at the boundaries where the Python code calls out.
-/

namespace ContentPipeline

/-- Errors raised by the pipeline.  Every raise site in the two source files
raises a ValueError with a distinct message; the spec names these messages as
an error taxonomy, and each constructor below corresponds to one raise site
(or, for fetchError and parseError, to an exception propagated out of an
external collaborator). -/
inductive PipelineError where
  | configurationError
  | searchProviderError (msg : String)
  | noResultsError
  | noValidURLsError
  | fetchError (msg : String)
  | parseError (msg : String)
  | noSummariesCreatedError
  deriving DecidableEq, Repr

/-- LangChain Document: page_content plus a metadata dict, the dict modelled
as an association list of string pairs (matching the spec's
"mapping of string to string"). -/
structure Document where
  page_content : String
  metadata : List (String × String) := []
  deriving DecidableEq, Repr

/-- One page fetch in the event trace of ChromiumLoader.load: the start of an
ascrape_playwright coroutine for a url, or its completion. -/
inductive FetchEvent where
  | start (url : String)
  | finish (url : String)
  deriving DecidableEq, Repr

/-- Whether an event is the start of a fetch. -/
def FetchEvent.isStart : FetchEvent → Bool
  | FetchEvent.start _ => true
  | FetchEvent.finish _ => false

/-- Event trace of the comprehension in ChromiumLoader.load
(content_collection.py line 40):
raw_text = [await self.ascrape_playwright(url) for url in self.urls].
A Python async list comprehension evaluates sequentially: the coroutine for
each url only begins to run when awaited, and that await completes before the
next iteration begins, so the trace is
start u0, finish u0, start u1, finish u1, ... -/
def ChromiumLoader.loadEvents : List String → List FetchEvent
  | [] => []
  | url :: rest =>
    FetchEvent.start url :: FetchEvent.finish url :: ChromiumLoader.loadEvents rest

/-- Predicate written from the spec's words for the Page Fetcher concurrency
model ("one fetch task per URL, all launched together, caller awaits all
before proceeding"): in the event trace, every fetch start occurs before any
fetch completion, i.e. once the leading block of start events ends, no
further start event appears. -/
def allLaunchedTogether (tr : List FetchEvent) : Bool :=
  (tr.dropWhile fun e => e.isStart).all fun e => !e.isStart

/-- Value semantics of the comprehension in ChromiumLoader.load
(content_collection.py line 40): each url is scraped in turn and an exception
raised by any single await propagates immediately, aborting the batch. -/
def scrapeAll (ascrape_playwright : String → Except PipelineError String) :
    List String → Except PipelineError (List String)
  | [] => Except.ok []
  | url :: rest =>
    match ascrape_playwright url with
    | Except.error e => Except.error e
    | Except.ok text =>
      match scrapeAll ascrape_playwright rest with
      | Except.error e => Except.error e
      | Except.ok texts => Except.ok (text :: texts)

/-- ChromiumLoader.load (content_collection.py lines 32-42): scrape every url
and wrap each raw text into a Document (with the default empty metadata, as
Document(page_content=text) does). -/
def ChromiumLoader.load (ascrape_playwright : String → Except PipelineError String)
    (urls : List String) : Except PipelineError (List Document) :=
  match scrapeAll ascrape_playwright urls with
  | Except.error e => Except.error e
  | Except.ok raw_text => Except.ok (raw_text.map fun text => { page_content := text })

/-- URL-selection steps of get_html_content_from_urls
(content_collection.py lines 63-77): take the first number_of_urls values of
the url column, drop empty strings, deduplicate via list(set(urls)) -- whose
iteration order CPython leaves unspecified; List.dedup is one representative
order, and every property proved below about the result is order-independent
-- and raise 找不到有效的 URL！ when nothing remains.  (The
isinstance(urls, str) branch on line 66 cannot fire, since ndarray.tolist()
of a sliced column is always a list, so it is not modelled.) -/
def selectUrls (col : List String) (number_of_urls : Nat) :
    Except PipelineError (List String) :=
  let urls := col.take number_of_urls
  let urls := urls.filter fun url => url != ""
  let urls := urls.dedup
  if urls.length = 0 then Except.error PipelineError.noValidURLsError
  else Except.ok urls

/-- get_html_content_from_urls (content_collection.py lines 45-83): select
the urls from the column, then fetch them through a ChromiumLoader.  The
DataFrame column df[url_column] is modelled as the list of its values. -/
def get_html_content_from_urls (ascrape_playwright : String → Except PipelineError String)
    (col : List String) (number_of_urls : Nat := 3) :
    Except PipelineError (List Document) :=
  match selectUrls col number_of_urls with
  | Except.error e => Except.error e
  | Except.ok urls => ChromiumLoader.load ascrape_playwright urls

/-- extract_text_from_webpages (content_collection.py lines 86-101):
Html2TextTransformer.transform_documents, an external collaborator that
converts each document to plain text; modelled as mapping an opaque
per-document transform over the list. -/
def extract_text_from_webpages (html2text : Document → Document)
    (documents : List Document) : List Document :=
  documents.map html2text

/-- One organic search result row; only its link field is consumed by the
pipeline (url_column defaults to "link"). -/
structure SerpRow where
  link : String
  deriving DecidableEq, Repr

/-- Search-provider response dict as consumed by the source: it may carry an
error entry and may carry an organic_results list; none models an absent
key. -/
structure SerpResponse where
  error : Option String := none
  organic_results : Option (List SerpRow) := none
  deriving DecidableEq, Repr

/-- collect_serp_data_and_extract_text_from_webpages
(content_collection.py lines 104-159).  The api_key argument models
os.getenv("SERPAPI_API_KEY") (none = unset); Python's `if not api_key` also
rejects the empty string.  The SerpResponse argument models the dict returned
by search.get_dict() for the query.  After the three checks the organic rows
are framed into a DataFrame whose "link" column feeds
get_html_content_from_urls with its defaults, and the fetched documents are
transformed to text. -/
def collect_serp_data_and_extract_text_from_webpages
    (api_key : Option String) (result : SerpResponse)
    (ascrape_playwright : String → Except PipelineError String)
    (html2text : Document → Document) : Except PipelineError (List Document) :=
  match api_key with
  | none => Except.error PipelineError.configurationError
  | some key =>
    if key = "" then Except.error PipelineError.configurationError
    else
      match result.error with
      | some e => Except.error (PipelineError.searchProviderError e)
      | none =>
        match result.organic_results with
        | none => Except.error PipelineError.noResultsError
        | some organic_results =>
          if organic_results.isEmpty then Except.error PipelineError.noResultsError
          else
            match get_html_content_from_urls ascrape_playwright
                (organic_results.map SerpRow.link) with
            | Except.error e => Except.error e
            | Except.ok html_documents =>
              Except.ok (extract_text_from_webpages html2text html_documents)

/-- Configuration of a ChatOpenAI client as constructed in the source:
sampling temperature and model identifier. -/
structure ChatOpenAIConfig where
  temperature : Nat
  model : String
  deriving DecidableEq, Repr

/-- DocumentSummary (custom_summarize_chain.py lines 29-49): the structured
summary record, with expert_opinions optional (absent is distinct from empty)
and metadata defaulting to the empty mapping. -/
structure DocumentSummary where
  concise_summary : String
  writing_style : String
  key_points : List String
  expert_opinions : Option (List String) := none
  metadata : List (String × String) := []
  deriving DecidableEq, Repr

/-- The prompt actually sent to the model by create_summary_from_text
(custom_summarize_chain.py lines 84-116): the fixed Traditional-Chinese
instruction template with the text slot filled by the StuffDocumentsChain --
which, given the single input document, is that document's page_content --
and the format_instructions slot filled by the parser's format instructions.
Substitution is modelled as concatenation of the template's fixed segments
around the two slots, which matches Python str.format on this template. -/
def formatPrompt (text format_instructions : String) : String :=
  "\n    所有內容必須以繁體中文輸出。\n    作為內容 SEO 研究員，你需要總結並提取以下文本的關鍵點。\n    獲得的見解將用於內容研究，我們將比較多篇文章的關鍵點、見解和摘要。\n    ---\n    - 你必須分析文本並從以下文本中提取關鍵點和觀點\n    - 你必須從以下文本中提取關鍵點和觀點：\n    "
    ++ text ++ "\n    " ++ format_instructions ++ "\n    "

/-- create_summary_from_text (custom_summarize_chain.py lines 52-127).
The PydanticOutputParser is modelled by the pair of its observable uses:
format_instructions (parser.get_format_instructions()) and parse
(parser.parse, which may raise on schema mismatch).  split_documents models
text_splitter.split_documents([document]); invoke models the chat-model
inference call, mapping the client configuration and the prompt to the raw
output_text.  Mirroring line 96, the llm argument is shadowed by a freshly
constructed ChatOpenAI(temperature=0, model="gpt-5") before any model call.
After a successful parse, the summary's metadata is overwritten with the
source document's metadata (line 125). -/
def create_summary_from_text
    (document : Document)
    (format_instructions : String)
    (parse : String → Except PipelineError DocumentSummary)
    (llm : ChatOpenAIConfig)
    (split_documents : Document → List Document)
    (invoke : ChatOpenAIConfig → String → String) :
    Except PipelineError (Option DocumentSummary) :=
  match split_documents document with
  | [] => Except.ok none
  | first_document :: _ =>
    let llm : ChatOpenAIConfig := { temperature := 0, model := "gpt-5" }
    let prompt := formatPrompt first_document.page_content format_instructions
    match parse (invoke llm prompt) with
    | Except.error e => Except.error e
    | Except.ok document_summary =>
      Except.ok (some { document_summary with metadata := document.metadata })

/-- Join semantics of asyncio.gather(*tasks) (custom_summarize_chain.py line
163) with the default return_exceptions=False: the per-task results are
returned in task order, or an exception raised by some task propagates.  When
several tasks raise, which exception surfaces depends on completion order;
the first error in task order is taken as the representative here, and no
claim below depends on which error is surfaced. -/
def collectExcept {α : Type} : List (Except PipelineError α) → Except PipelineError (List α)
  | [] => Except.ok []
  | Except.error e :: _ => Except.error e
  | Except.ok a :: rest =>
    match collectExcept rest with
    | Except.error e => Except.error e
    | Except.ok tail => Except.ok (a :: tail)

/-- create_all_summaries (custom_summarize_chain.py lines 130-173): one
create_summary_from_text task per document, gathered; None results are
filtered out, and an empty final list raises
沒有成功創建任何摘要！請檢查輸入文檔和 API 配置。 -/
def create_all_summaries
    (text_documents : List Document)
    (format_instructions : String)
    (parse : String → Except PipelineError DocumentSummary)
    (llm : ChatOpenAIConfig)
    (split_documents : Document → List Document)
    (invoke : ChatOpenAIConfig → String → String) :
    Except PipelineError (List DocumentSummary) :=
  let tasks := text_documents.map fun document =>
    create_summary_from_text document format_instructions parse llm split_documents invoke
  match collectExcept tasks with
  | Except.error e => Except.error e
  | Except.ok results =>
    let summaries := results.filterMap fun summary => summary
    if summaries.length = 0 then Except.error PipelineError.noSummariesCreatedError
    else Except.ok summaries

/-!  Concrete instances of the opaque collaborators, used to evaluate the
pipeline on closed inputs. -/

/-- A fetch that succeeds with the url itself as page text, except on the
url "http://bad" where the underlying browser call raises. -/
def exFetch : String → Except PipelineError String := fun url =>
  if url = "http://bad" then Except.error (PipelineError.fetchError url) else Except.ok url

/-- A splitter producing one chunk per non-empty document and no chunk for an
empty one. -/
def exSplit : Document → List Document := fun document =>
  if document.page_content = "" then [] else [document]

/-- A splitter that always yields the document itself followed by a second
chunk. -/
def exSplitTwo : Document → List Document := fun document =>
  [document, { page_content := "tail" }]

/-- A parse that always succeeds, echoing the raw model output into
concise_summary and inventing a metadata entry the way a hallucinating model
could. -/
def exParse : String → Except PipelineError DocumentSummary := fun output_text =>
  Except.ok { concise_summary := output_text, writing_style := "w",
              key_points := ["k"], metadata := [("hallucinated", "x")] }

/-- A model call returning a fixed reply. -/
def exInvoke : ChatOpenAIConfig → String → String := fun _ _ => "summary"

/-- A caller-supplied client configuration, distinct from the internally
constructed one. -/
def exLLM : ChatOpenAIConfig := { temperature := 1, model := "other" }

/-- A document with text and source metadata. -/
def exDocA : Document := { page_content := "alpha", metadata := [("source", "a")] }

/-- A document with empty text, which exSplit turns into zero chunks. -/
def exDocEmpty : Document := { page_content := "" }

/-- The summary produced for exDocA under the instances above. -/
def exResA : DocumentSummary :=
  { concise_summary := "summary", writing_style := "w", key_points := ["k"],
    metadata := [("source", "a")] }

/-- A provider response carrying an error entry. -/
def exRespError : SerpResponse := { error := some "boom" }

/-- A provider response with an empty organic_results list. -/
def exRespEmpty : SerpResponse := { organic_results := some [] }

/-!  Helper lemmas. -/

/-- Gathering a list of task results succeeds with one value per task. -/
theorem collectExcept_ok_length {α : Type} :
    ∀ (tasks : List (Except PipelineError α)) (results : List α),
      collectExcept tasks = Except.ok results → results.length = tasks.length := by
  intro tasks
  induction tasks with
  | nil =>
    intro results h
    simp [collectExcept] at h
    simp [← h]
  | cons t rest ih =>
    intro results h
    cases t with
    | error e => simp [collectExcept] at h
    | ok a =>
      simp only [collectExcept] at h
      cases hrest : collectExcept rest with
      | error e => rw [hrest] at h; cases h
      | ok tail =>
        rw [hrest] at h
        cases h
        simp [ih tail hrest]

/-- Filtering the values out of a list of optional results keeps exactly the
isSome entries. -/
theorem length_filterMap_option {α : Type} (l : List (Option α)) :
    (l.filterMap fun summary => summary).length = l.countP fun r => r.isSome := by
  induction l with
  | nil => rfl
  | cons o rest ih =>
    cases o with
    | none => simp [List.filterMap_cons, List.countP_cons, ih]
    | some a => simp [List.filterMap_cons, List.countP_cons, ih]

/-- Every optional result is counted either as some or as none. -/
theorem countP_some_add_none {α : Type} (l : List (Option α)) :
    (l.countP fun r => r.isSome) + (l.countP fun r => r.isNone) = l.length := by
  induction l with
  | nil => rfl
  | cons o rest ih =>
    cases o with
    | none => simp [List.countP_cons, ih]; omega
    | some a => simp [List.countP_cons, ih]; omega

/-- A successful scrape of all urls yields one text per url. -/
theorem scrapeAll_ok_length (f : String → Except PipelineError String) :
    ∀ (urls : List String) (texts : List String),
      scrapeAll f urls = Except.ok texts → texts.length = urls.length := by
  intro urls
  induction urls with
  | nil =>
    intro texts h
    simp [scrapeAll] at h
    simp [← h]
  | cons u rest ih =>
    intro texts h
    simp only [scrapeAll] at h
    cases hu : f u with
    | error e => rw [hu] at h; cases h
    | ok t =>
      rw [hu] at h
      cases hrest : scrapeAll f rest with
      | error e => rw [hrest] at h; cases h
      | ok ts =>
        rw [hrest] at h
        cases h
        simp [ih ts hrest]

/-- A successful scrape pairs each url with its text, in input order. -/
theorem scrapeAll_ok_get (f : String → Except PipelineError String) :
    ∀ (urls : List String) (texts : List String),
      scrapeAll f urls = Except.ok texts →
      ∀ (i : Nat) (h1 : i < urls.length) (h2 : i < texts.length),
        f (urls.get ⟨i, h1⟩) = Except.ok (texts.get ⟨i, h2⟩) := by
  intro urls
  induction urls with
  | nil =>
    intro texts h i h1 h2
    exact absurd h1 (by simp)
  | cons u rest ih =>
    intro texts h i h1 h2
    simp only [scrapeAll] at h
    cases hu : f u with
    | error e => rw [hu] at h; cases h
    | ok t =>
      rw [hu] at h
      cases hrest : scrapeAll f rest with
      | error e => rw [hrest] at h; cases h
      | ok ts =>
        rw [hrest] at h
        cases h
        cases i with
        | zero => simpa using hu
        | succ j =>
          have hj1 : j < rest.length := by simpa using h1
          have hj2 : j < ts.length := by simpa using h2
          simpa using ih ts hrest j hj1 hj2

/-- A raise inside any single scrape makes the whole scrape raise. -/
theorem scrapeAll_error_of_mem (f : String → Except PipelineError String) :
    ∀ (urls : List String) (url : String), url ∈ urls →
      ∀ (e : PipelineError), f url = Except.error e →
      ∃ e2, scrapeAll f urls = Except.error e2 := by
  intro urls
  induction urls with
  | nil =>
    intro url hmem
    exact absurd hmem (by simp)
  | cons u rest ih =>
    intro url hmem e he
    rcases List.mem_cons.mp hmem with hhead | htail
    · subst hhead
      exact ⟨e, by simp [scrapeAll, he]⟩
    · cases hu : f u with
      | error e3 => exact ⟨e3, by simp [scrapeAll, hu]⟩
      | ok t =>
        rcases ih url htail e he with ⟨e2, hrest⟩
        exact ⟨e2, by simp [scrapeAll, hu, hrest]⟩

/-!  Claim theorems. -/

/-- C1 (counterexample): the claim says that on the rows
["", "http://a", "http://a", "http://b"] with N = 3 the URL Selector returns
exactly the set containing http://a and http://b.  On the code this fails:
the truncation to the first N rows happens before the empty-string filter, so
the fourth row http://b is never taken. -/
theorem C1_counterexample :
    ¬ ∃ urls, selectUrls ["", "http://a", "http://a", "http://b"] 3 = Except.ok urls ∧
      ∀ u, u ∈ urls ↔ (u = "http://a" ∨ u = "http://b") := by
  intro hcl
  rcases hcl with ⟨urls, h1, h2⟩
  have hcomp : selectUrls ["", "http://a", "http://a", "http://b"] 3
      = Except.ok ["http://a"] := rfl
  rw [hcomp] at h1
  have hurls : (["http://a"] : List String) = urls := Except.ok.inj h1
  have hb : "http://b" ∈ urls := (h2 "http://b").mpr (Or.inr rfl)
  rw [← hurls] at hb
  exact absurd hb (by decide)

/-- C1 (amended): on the rows ["", "http://a", "http://a", "http://b"] with
N = 3, the URL selection keeps only the first three entries before filtering,
so it returns exactly the set containing http://a alone. -/
theorem C1_selector_example :
    selectUrls ["", "http://a", "http://a", "http://b"] 3 = Except.ok ["http://a"] ∧
    ("http://a" ∈ (["http://a"] : List String) ∧
      "http://b" ∉ (["http://a"] : List String)) := ⟨rfl, by decide⟩

/-- C2 (amended): the fetch trace of ChromiumLoader.load is the in-order
concatenation of one block per url, each block being that url's fetch start
immediately followed by its completion: fetches run one at a time, each
awaited to completion before the next is launched, the caller obtains the
results only after the last block. -/
theorem C2_load_sequential (urls : List String) :
    ChromiumLoader.loadEvents urls
      = (urls.map fun url => [FetchEvent.start url, FetchEvent.finish url]).flatten := by
  induction urls with
  | nil => rfl
  | cons u rest ih => simp [ChromiumLoader.loadEvents, ih]

/-- C2 (counterexample): with two urls the fetch trace is start a, finish a,
start b, finish b -- the second fetch starts only after the first completes,
so the fetch tasks are not all launched together before the caller awaits
them, refuting the claimed unbounded concurrent fan-out. -/
theorem C2_counterexample :
    ChromiumLoader.loadEvents ["http://a", "http://b"]
        = [FetchEvent.start "http://a", FetchEvent.finish "http://a",
           FetchEvent.start "http://b", FetchEvent.finish "http://b"] ∧
    allLaunchedTogether (ChromiumLoader.loadEvents ["http://a", "http://b"]) = false := by
  constructor
  · rfl
  · rfl

/-- C3: when no per-document summarization raises (the gather succeeds with
the list of per-document results), create_all_summaries returns the non-null
results, M minus the null count of them; and when every one of the M results
is null it fails with NoSummariesCreatedError. -/
theorem C3_create_all_summaries
    (text_documents : List Document) (format_instructions : String)
    (parse : String → Except PipelineError DocumentSummary) (llm : ChatOpenAIConfig)
    (split_documents : Document → List Document) (invoke : ChatOpenAIConfig → String → String)
    (results : List (Option DocumentSummary))
    (h : collectExcept (text_documents.map fun document =>
          create_summary_from_text document format_instructions parse llm split_documents invoke)
        = Except.ok results) :
    ((∃ r ∈ results, r.isSome) →
      create_all_summaries text_documents format_instructions parse llm split_documents invoke
          = Except.ok (results.filterMap fun summary => summary) ∧
        (results.filterMap fun summary => summary).length
          = text_documents.length - results.countP (fun r => r.isNone)) ∧
    ((∀ r ∈ results, r = none) →
      create_all_summaries text_documents format_instructions parse llm split_documents invoke
          = Except.error PipelineError.noSummariesCreatedError) := by
  have hlen : results.length = text_documents.length := by
    have := collectExcept_ok_length _ results h
    simpa using this
  constructor
  · intro hsome
    have hpos : 0 < results.countP fun r => r.isSome := by
      rw [List.countP_pos_iff]
      exact hsome
    have hne : (results.filterMap fun summary => summary).length ≠ 0 := by
      rw [length_filterMap_option]
      omega
    constructor
    · simp only [create_all_summaries, h]
      rw [if_neg hne]
    · rw [length_filterMap_option]
      have := countP_some_add_none results
      omega
  · intro hall
    have hnil : (results.filterMap fun summary => summary) = [] := by
      rw [List.filterMap_eq_nil_iff]
      intro a ha
      exact hall a ha
    simp only [create_all_summaries, h, hnil]
    rfl

/-- C3 (witness): two documents, the second splitting into zero chunks, give
one summary: 2 documents minus 1 null. -/
theorem C3_witness :
    (create_all_summaries [exDocA, exDocEmpty] "fi" exParse exLLM exSplit exInvoke
        = Except.ok ([some exResA, none].filterMap fun summary => summary) ∧
      ([some exResA, none].filterMap fun summary => summary).length
        = ([exDocA, exDocEmpty] : List Document).length
            - ([some exResA, none] : List (Option DocumentSummary)).countP (fun r => r.isNone)) ∧
    create_all_summaries [exDocEmpty] "fi" exParse exLLM exSplit exInvoke
        = Except.error PipelineError.noSummariesCreatedError := by
  constructor
  · exact (C3_create_all_summaries [exDocA, exDocEmpty] "fi" exParse exLLM exSplit exInvoke
      [some exResA, none] rfl).1 ⟨some exResA, by decide⟩
  · exact (C3_create_all_summaries [exDocEmpty] "fi" exParse exLLM exSplit exInvoke
      [none] rfl).2 (by decide)

/-- C4: whenever create_summary_from_text returns a summary, that summary's
metadata equals the source document's metadata, whatever metadata the parsed
model reply carried: line 125 overwrites the field after parsing. -/
theorem C4_metadata_preserved
    (document : Document) (format_instructions : String)
    (parse : String → Except PipelineError DocumentSummary) (llm : ChatOpenAIConfig)
    (split_documents : Document → List Document) (invoke : ChatOpenAIConfig → String → String)
    (s : DocumentSummary)
    (h : create_summary_from_text document format_instructions parse llm split_documents invoke
        = Except.ok (some s)) :
    s.metadata = document.metadata := by
  cases hs : split_documents document with
  | nil => simp [create_summary_from_text, hs] at h
  | cons first_document rest =>
    simp only [create_summary_from_text, hs] at h
    cases hp : parse (invoke { temperature := 0, model := "gpt-5" }
        (formatPrompt first_document.page_content format_instructions)) with
    | error e => rw [hp] at h; cases h
    | ok document_summary =>
      rw [hp] at h
      have hsum := Option.some.inj (Except.ok.inj h)
      rw [← hsum]

/-- C4 (witness): the parse invents metadata [("hallucinated", "x")], yet the
returned summary carries exDocA's own metadata. -/
theorem C4_witness : exResA.metadata = exDocA.metadata :=
  C4_metadata_preserved exDocA "fi" exParse exLLM exSplit exInvoke exResA rfl

/-- C5: when every page scrape succeeds, ChromiumLoader.load returns exactly
one document per url in input order (the i-th document wraps the i-th url's
scraped text); and if the scrape of any url in the list raises, the whole
load raises and returns no partial result. -/
theorem C5_page_fetcher (ascrape_playwright : String → Except PipelineError String)
    (urls : List String) :
    (∀ texts, scrapeAll ascrape_playwright urls = Except.ok texts →
      ChromiumLoader.load ascrape_playwright urls
          = Except.ok (texts.map fun text => { page_content := text }) ∧
        texts.length = urls.length ∧
        ∀ (i : Nat) (h1 : i < urls.length) (h2 : i < texts.length),
          ascrape_playwright (urls.get ⟨i, h1⟩) = Except.ok (texts.get ⟨i, h2⟩)) ∧
    (∀ url, url ∈ urls → ∀ e, ascrape_playwright url = Except.error e →
      ∃ e2, ChromiumLoader.load ascrape_playwright urls = Except.error e2) := by
  constructor
  · intro texts h
    refine ⟨by simp [ChromiumLoader.load, h], scrapeAll_ok_length _ _ _ h, ?_⟩
    exact scrapeAll_ok_get ascrape_playwright urls texts h
  · intro url hmem e he
    rcases scrapeAll_error_of_mem ascrape_playwright urls url hmem e he with ⟨e2, hscr⟩
    exact ⟨e2, by simp [ChromiumLoader.load, hscr]⟩

/-- C5 (witness): two good urls load to two documents in order; a batch
containing the bad url makes the whole load raise. -/
theorem C5_witness :
    ChromiumLoader.load exFetch ["http://a", "http://b"]
        = Except.ok [{ page_content := "http://a" }, { page_content := "http://b" }] ∧
    ∃ e2, ChromiumLoader.load exFetch ["http://a", "http://bad"] = Except.error e2 := by
  constructor
  · exact ((C5_page_fetcher exFetch ["http://a", "http://b"]).1
      ["http://a", "http://b"] rfl).1
  · exact (C5_page_fetcher exFetch ["http://a", "http://bad"]).2 "http://bad" (by decide)
      (PipelineError.fetchError "http://bad") rfl

/-- C6: whenever the URL selection succeeds, its output has no duplicates, no
empty strings, and a length between 1 and the requested cap; and when the
set left after truncation, filtering and deduplication is empty, it fails
with NoValidURLsError. -/
theorem C6_selector_invariants (col : List String) (number_of_urls : Nat) :
    (∀ urls, selectUrls col number_of_urls = Except.ok urls →
      urls.Nodup ∧ (∀ url ∈ urls, url ≠ "") ∧
        1 ≤ urls.length ∧ urls.length ≤ number_of_urls) ∧
    (((col.take number_of_urls).filter fun url => url != "").dedup = [] →
      selectUrls col number_of_urls = Except.error PipelineError.noValidURLsError) := by
  constructor
  · intro urls h
    simp only [selectUrls] at h
    by_cases hz : ((col.take number_of_urls).filter fun url => url != "").dedup.length = 0
    · rw [if_pos hz] at h; cases h
    · rw [if_neg hz] at h
      have hurls : ((col.take number_of_urls).filter fun url => url != "").dedup = urls :=
        Except.ok.inj h
      subst hurls
      refine ⟨List.nodup_dedup _, ?_, by omega, ?_⟩
      · intro url hmem
        have hf : url ∈ (col.take number_of_urls).filter fun url => url != "" :=
          List.mem_dedup.mp hmem
        have hb : (url != "") = true := (List.mem_filter.mp hf).2
        exact bne_iff_ne.mp hb
      · calc ((col.take number_of_urls).filter fun url => url != "").dedup.length
            ≤ ((col.take number_of_urls).filter fun url => url != "").length :=
              (List.dedup_sublist _).length_le
          _ ≤ (col.take number_of_urls).length := (List.filter_sublist _).length_le
          _ ≤ number_of_urls := by simp [List.length_take]
  · intro h
    simp [selectUrls, h]

/-- C6 (witness): the selected list ["http://a"] satisfies all four
invariants at cap 3, and a column of empty strings makes selection fail. -/
theorem C6_witness :
    ((["http://a"] : List String).Nodup ∧
      (∀ url ∈ (["http://a"] : List String), url ≠ "") ∧
      1 ≤ (["http://a"] : List String).length ∧
      (["http://a"] : List String).length ≤ 3) ∧
    selectUrls ["", ""] 3 = Except.error PipelineError.noValidURLsError := by
  constructor
  · exact (C6_selector_invariants ["", "http://a", "http://a", "http://b"] 3).1
      ["http://a"] rfl
  · exact (C6_selector_invariants ["", ""] 3).2 (by decide)

/-- C7: with a configured api key, a response carrying an error entry makes
the pipeline fail with SearchProviderError -- for every downstream fetch and
transform, so URL selection is never reached -- and an error-free response
whose organic_results is absent or empty makes it fail with NoResultsError. -/
theorem C7_search_error_handling (key : String) (hkey : key ≠ "")
    (result : SerpResponse)
    (ascrape_playwright : String → Except PipelineError String)
    (html2text : Document → Document) :
    (∀ e, result.error = some e →
      collect_serp_data_and_extract_text_from_webpages (some key) result
          ascrape_playwright html2text
        = Except.error (PipelineError.searchProviderError e)) ∧
    (result.error = none →
      (result.organic_results = none ∨ result.organic_results = some []) →
      collect_serp_data_and_extract_text_from_webpages (some key) result
          ascrape_playwright html2text
        = Except.error PipelineError.noResultsError) := by
  constructor
  · intro e he
    simp [collect_serp_data_and_extract_text_from_webpages, he, hkey]
  · intro he ho
    cases ho with
    | inl h => simp [collect_serp_data_and_extract_text_from_webpages, he, h, hkey]
    | inr h => simp [collect_serp_data_and_extract_text_from_webpages, he, h, hkey]

/-- C7 (witness): concrete responses exercising both failure paths. -/
theorem C7_witness :
    collect_serp_data_and_extract_text_from_webpages (some "key") exRespError exFetch id
        = Except.error (PipelineError.searchProviderError "boom") ∧
    collect_serp_data_and_extract_text_from_webpages (some "key") exRespEmpty exFetch id
        = Except.error PipelineError.noResultsError := by
  constructor
  · exact (C7_search_error_handling "key" (by decide) exRespError exFetch id).1 "boom" rfl
  · exact (C7_search_error_handling "key" (by decide) exRespEmpty exFetch id).2 rfl (Or.inr rfl)

/-- C8: a document whose splitter yields zero chunks makes
create_summary_from_text return None -- a successful null result, not a
raised error. -/
theorem C8_empty_split_returns_none
    (document : Document) (format_instructions : String)
    (parse : String → Except PipelineError DocumentSummary) (llm : ChatOpenAIConfig)
    (split_documents : Document → List Document) (invoke : ChatOpenAIConfig → String → String)
    (h : split_documents document = []) :
    create_summary_from_text document format_instructions parse llm split_documents invoke
      = Except.ok none := by
  simp [create_summary_from_text, h]

/-- C8 (witness): the empty document splits into no chunks and summarizes to
the null result. -/
theorem C8_witness :
    create_summary_from_text exDocEmpty "fi" exParse exLLM exSplit exInvoke
      = Except.ok none :=
  C8_empty_split_returns_none exDocEmpty "fi" exParse exLLM exSplit exInvoke (by decide)

/-- C9: when the splitter yields at least one chunk, the whole result of
create_summary_from_text factors through the prompt built from the first
chunk's text alone: the model call receives formatPrompt of the first
chunk's page_content and the format instructions, so text from later chunks
never reaches the model. -/
theorem C9_first_chunk_only
    (document : Document) (format_instructions : String)
    (parse : String → Except PipelineError DocumentSummary) (llm : ChatOpenAIConfig)
    (split_documents : Document → List Document) (invoke : ChatOpenAIConfig → String → String)
    (first_document : Document) (rest : List Document)
    (h : split_documents document = first_document :: rest) :
    create_summary_from_text document format_instructions parse llm split_documents invoke
      = Except.map (fun document_summary =>
            some { document_summary with metadata := document.metadata })
          (parse (invoke { temperature := 0, model := "gpt-5" }
            (formatPrompt first_document.page_content format_instructions))) := by
  simp only [create_summary_from_text, h]
  cases hp : parse (invoke { temperature := 0, model := "gpt-5" }
      (formatPrompt first_document.page_content format_instructions)) with
  | error e => simp [Except.map, hp]
  | ok document_summary => simp [Except.map, hp]

/-- C9 (witness): under a two-chunk splitter the result equals the map of the
parse of the model call on the first chunk's prompt; the "tail" chunk plays
no part. -/
theorem C9_witness :
    create_summary_from_text exDocA "fi" exParse exLLM exSplitTwo exInvoke
      = Except.map (fun document_summary =>
            some { document_summary with metadata := exDocA.metadata })
          (exParse (exInvoke { temperature := 0, model := "gpt-5" }
            (formatPrompt exDocA.page_content "fi"))) :=
  C9_first_chunk_only exDocA "fi" exParse exLLM exSplitTwo exInvoke
    exDocA [{ page_content := "tail" }] (by decide)

/-- C10: the llm argument of create_summary_from_text is dead: line 96
shadows it with a freshly built ChatOpenAI(temperature=0, model="gpt-5")
before any model call, so any two caller-supplied clients give the same
model invocation and the same result. -/
theorem C10_llm_argument_ignored
    (document : Document) (format_instructions : String)
    (parse : String → Except PipelineError DocumentSummary)
    (split_documents : Document → List Document) (invoke : ChatOpenAIConfig → String → String)
    (llm1 llm2 : ChatOpenAIConfig) :
    create_summary_from_text document format_instructions parse llm1 split_documents invoke
      = create_summary_from_text document format_instructions parse llm2 split_documents invoke := rfl

end ContentPipeline
